import Mathlib

/-!
# Verification of the remini-api enhancement pipeline

Shallow embedding of `src/app.js` (three near-duplicate variants separated in
the source file; variant 1 is the "strict" pipeline with `enhanceImage`,
variant 2 is the inline-handler variant, variant 3 the basic shared-pipeline
variant).  Network calls (`axios.head`), the external enhancement provider
(`remini`) and the platform URL facilities are modelled as explicit oracle
inputs, so every run of the pipeline is a pure function of the request URL and
the responses its collaborators would give.
-/

deriving instance DecidableEq for Except

namespace ReminiApi

/-- Whitespace characters recognised by the JavaScript string `trim` /
`validator.trim` and skipped by `parseInt` (ASCII subset, which is what the
claims exercise). -/
def jsWhitespace (c : Char) : Bool :=
  c == ' ' || c == '\t' || c == '\n' || c == '\r' ||
  c == Char.ofNat 11 || c == Char.ofNat 12

/-- JavaScript `String.prototype.trim` / `validator.trim(url)` at `src/app.js:67`:
drop leading and trailing whitespace. -/
def jsTrim (s : String) : String :=
  String.mk (((s.data.dropWhile jsWhitespace).reverse.dropWhile jsWhitespace).reverse)

/-- Characters allowed in a URL scheme. -/
def schemeChar (c : Char) : Bool :=
  c.isAlpha || c.isDigit || c == '+' || c == '-' || c == '.'

/-- The pieces of an absolute URL that the validation logic inspects. -/
structure UrlParts where
  scheme : String
  host : String
  deriving DecidableEq, Repr

/-- Split a character list at the first occurrence of the scheme separator
`://`: returns the part before it and the part after it, or `none` when the
separator does not occur. -/
def splitSchemeSep : List Char → Option (List Char × List Char)
  | [] => none
  | ':' :: '/' :: '/' :: rest => some ([], rest)
  | c :: rest => (splitSchemeSep rest).map (fun p => (c :: p.1, p.2))

/-- JavaScript `a.startsWith(b)` computed on the underlying character lists. -/
def startsWithChars : List Char → List Char → Bool
  | _, [] => true
  | [], _ :: _ => false
  | c :: cs, p :: ps => c == p && startsWithChars cs ps

/-- JavaScript `s.startsWith(pre)`. -/
def jsStartsWith (s pre : String) : Bool :=
  startsWithChars s.data pre.data

/-- The part of the authority after the last `@` (the whole authority when no
userinfo is present). -/
def afterLastAt (l : List Char) : List Char :=
  (l.reverse.takeWhile (fun c => !(c == '@'))).reverse

/-- Syntactic parse of an absolute URL of the form `scheme://...`, extracting
the scheme and the host component (authority up to `/`, `?`, `#`, with any
userinfo before `@` and any `:port` suffix stripped).  Strings containing
whitespace or angle brackets do not parse. -/
def parseAbsoluteUrl (s : String) : Option UrlParts :=
  let l := s.data
  if l.isEmpty then none
  else if l.any (fun c => jsWhitespace c || c == '<' || c == '>') then none
  else
    match splitSchemeSep l with
    | none => none
    | some (proto, rest) =>
      if proto.all schemeChar && (match proto with | [] => false | c :: _ => c.isAlpha) then
        let authority := rest.takeWhile (fun c => !(c == '/' || c == '?' || c == '#'))
        let host := (afterLastAt authority).takeWhile (fun c => !(c == ':'))
        some { scheme := String.mk proto, host := String.mk host }
      else none

/-- Modelled from the spec: the external `validator.isURL(url, { protocols:
['http','https'], require_protocol: true, require_valid_protocol: true,
require_host: true })` call at `src/app.js:19-24`.  The validator library is a
third-party dependency whose code is not part of this repository, so it is
modelled from the spec's stated rules (§4.1): valid iff the string parses as
an absolute URL, the scheme is exactly `http` or `https`, and the host
component is non-empty. -/
def validatorIsURL (url : String) : Bool :=
  match parseAbsoluteUrl url with
  | none => false
  | some u => decide ((u.scheme = "http" ∨ u.scheme = "https") ∧ u.host ≠ "")

/-- Function `isValidUrl` of the strict variant (`src/app.js:16-28`): delegates to
`validator.isURL`; the surrounding try/catch makes any internal failure an
ordinary `false`, so the model is total. -/
def isValidUrl (url : String) : Bool :=
  validatorIsURL url

/-- The response to a successful header-only (`HEAD`) request: the status code
and the two response headers the program reads. -/
structure HeadResponse where
  status : Nat
  contentType : Option String
  contentLength : Option String
  deriving DecidableEq, Repr

/-- Oracle outcome of one outbound `axios.head` call: either the network
delivers a response, or the call fails (network error, timeout, or the
3-redirect cap being exceeded — all surface as a thrown error). -/
inductive NetResult where
  | ok (r : HeadResponse)
  | err (msg : String)
  deriving DecidableEq, Repr

/-- Call `axios.head(url, { validateStatus })`: a delivered response whose status is
rejected by `validateStatus` is turned into a thrown error, exactly like a
network failure. -/
def axiosHead (net : NetResult) (accept : Nat → Bool) : Except String HeadResponse :=
  match net with
  | .err m => .error m
  | .ok r =>
    if accept r.status then .ok r
    else .error ("Request failed with status code " ++ toString r.status)

/-- Predicate `validateStatus` of the size probe (`src/app.js:36-38`): any 2xx status, or
403 for some protected resources. -/
def sizeAccept (status : Nat) : Bool :=
  (decide (200 ≤ status) && decide (status < 300)) || status == 403

/-- Predicate `validateStatus` of the strict reachability probe (`src/app.js:78-80`) and
the axios default used by the basic variants' size probe: only 2xx. -/
def reachAccept (status : Nat) : Bool :=
  decide (200 ≤ status) && decide (status < 300)

/-- JavaScript `parseInt(s, 10)`: skip leading whitespace, optional sign, then
the maximal run of leading decimal digits; `none` models `NaN` (no digits). -/
def jsParseInt (s : String) : Option Int :=
  let parseDigits : List Char → Option Nat := fun l =>
    match l.takeWhile Char.isDigit with
    | [] => none
    | ds => some (ds.foldl (fun a c => a * 10 + (c.toNat - 48)) 0)
  match s.data.dropWhile jsWhitespace with
  | '-' :: rest => (parseDigits rest).map (fun n => -(n : Int))
  | '+' :: rest => (parseDigits rest).map (fun n => (n : Int))
  | l => (parseDigits l).map (fun n => (n : Int))

/-- The integer of hundredths printed by `(bytes / 1024).toFixed(2)`:
ECMA-262 `toFixed` picks the integer `k` with `k / 100` closest to
`bytes / 1024`, ties towards the larger `k`, i.e. `k = ⌊100 * bytes / 1024 + 1/2⌋
= ⌊(100 * bytes + 512) / 1024⌋` (floor division).  The doubles involved
represent `bytes / 1024` exactly for the sizes at hand, so the exact integer
formula agrees with the float computation. -/
def toFixed2KBHundredths (bytes : ℤ) : ℤ :=
  Int.fdiv (100 * bytes + 512) 1024

/-- JavaScript `(bytes / 1024).toFixed(2)`: the hundredths value printed with
two decimal places.  (The JavaScript artefact `"-0.00"` for tiny negative
values is not distinguished; the program only ever passes header-derived byte
counts.) -/
def toFixed2KB (bytes : ℤ) : String :=
  let k := toFixed2KBHundredths bytes
  let sign := if k < 0 then "-" else ""
  let m := k.natAbs
  sign ++ toString (m / 100) ++ "." ++ (if m % 100 < 10 then "0" else "") ++ toString (m % 100)

/-- The shared body of both `getFileSize` variants: read `content-length`
(`response.headers['content-length'] || '0'` — missing or empty becomes `'0'`),
`parseInt` it, divide by 1024 and format with `toFixed(2)`; a `NaN` byte count
propagates to the label `"NaN KB"`. -/
def sizeLabelOf (r : HeadResponse) : String :=
  let raw := match r.contentLength with
    | none => "0"
    | some s => if s = "" then "0" else s
  match jsParseInt raw with
  | none => "NaN KB"
  | some n => toFixed2KB n ++ " KB"

/-- Function `getFileSize` of the strict variant (`src/app.js:31-48`): probe with the
403-tolerant `validateStatus`; any error is caught and becomes the sentinel
`"Unknown"`. -/
def getFileSize (net : NetResult) : String :=
  match axiosHead net sizeAccept with
  | .error _ => "Unknown"
  | .ok r => sizeLabelOf r

/-- Function `getFileSize` of the basic variants (`src/app.js:200-214`): same body, but
the axios default `validateStatus` (2xx only). -/
def getFileSizeBasic (net : NetResult) : String :=
  match axiosHead net reachAccept with
  | .error _ => "Unknown"
  | .ok r => sizeLabelOf r

/-- Oracle outcome of one call to the external `remini` provider: it resolves
with a URL string, or rejects / throws with an error message. -/
inductive ProviderResult where
  | ok (url : String)
  | err (msg : String)
  deriving DecidableEq, Repr

/-- The collaborator responses one strict-variant pipeline run would observe:
its reachability probe, its provider call, and its size probe. -/
structure World where
  reachProbe : NetResult
  provider : ProviderResult
  sizeProbe : NetResult
  deriving DecidableEq, Repr

/-- The `try { axios.head(...); content-type check } catch { ... }` block of the
strict `enhanceImage` (`src/app.js:73-91`).  Note that the inner
`throw new Error('URL does not point to a valid image')` is raised *inside* the
`try`, so the `catch` swallows it and every failure of this block — probe
failure, rejected status, and content-type mismatch alike — surfaces as
`'Cannot access the specified image'`. -/
def checkAccess (net : NetResult) : Except String Unit :=
  let inner : Except String Unit := do
    let headResponse ← axiosHead net reachAccept
    let contentType := headResponse.contentType
    if contentType.isNone || !(jsStartsWith (contentType.getD "") "image/") then
      Except.error "URL does not point to a valid image"
    else
      Except.ok ()
  match inner with
  | .error _accessError => .error "Cannot access the specified image"
  | .ok u => .ok u

/-- The successful result object of the strict `enhanceImage`
(`src/app.js:110-114`). -/
structure EnhanceOk where
  original_url : String
  image_data : String
  image_size : String
  deriving DecidableEq, Repr

/-- The strict variant's shared pipeline `enhanceImage` (`src/app.js:60-115`):
presence check, trim + syntactic validation, reachability/content-type check,
provider call, provider-result validation, best-effort size probe.  `none`
models calling it with `undefined`. -/
def enhanceImage (url : Option String) (w : World) : Except String EnhanceOk :=
  match url with
  | none => .error "URL is required"
  | some u =>
    if u = "" then .error "URL is required"
    else
      let sanitizedUrl := jsTrim u
      if !(isValidUrl sanitizedUrl) then .error "Invalid URL format or protocol"
      else
        match checkAccess w.reachProbe with
        | .error m => .error m
        | .ok _ =>
          match w.provider with
          | .err _reminiError => .error "Failed to enhance the image"
          | .ok enhancedImageUrl =>
            if enhancedImageUrl = "" || !(isValidUrl enhancedImageUrl) then
              .error "Enhanced image URL is invalid"
            else
              .ok { original_url := sanitizedUrl
                    image_data := enhancedImageUrl
                    image_size := getFileSize w.sizeProbe }

/-- A JSON failure reply of one of the `/enhance-image` handlers: HTTP status,
`error` code, `message`, and the optional `details` field only the inline
handler variant emits. -/
structure FailureReply where
  status : Nat
  error : String
  message : String
  details : Option String := none
  deriving DecidableEq, Repr

/-- The strict variant's `POST /enhance-image` handler (`src/app.js:118-130`)
(the GET handler at `src/app.js:133-145` is identical): a successful pipeline
run is serialised as-is with status 200, and every error thrown by
`enhanceImage` becomes status 400 with code `ENHANCEMENT_FAILED` and the
error's message. -/
def postEnhanceImage (url : Option String) (w : World) : Except FailureReply EnhanceOk :=
  match enhanceImage url w with
  | .ok result => .ok result
  | .error e => .error { status := 400, error := "ENHANCEMENT_FAILED", message := e }

/-- Modelled from the spec: the platform `new URL(url)` constructor used by the
basic variants' `isValidUrl` (`src/app.js:190-197`) is runtime library code not
part of this repository; it succeeds on any string with a well-formed scheme,
and for `http`/`https` additionally requires a non-empty host. -/
def jsNewUrlSucceeds (s : String) : Bool :=
  match splitSchemeSep s.data with
  | some (proto, _) =>
    if proto.all schemeChar && (match proto with | [] => false | c :: _ => c.isAlpha) then
      match parseAbsoluteUrl s with
      | some u => decide ((u.scheme = "http" ∨ u.scheme = "https") → u.host ≠ "")
      | none => false
    else false
  | none =>
    match s.data.dropWhile (fun c => !(c == ':')) with
    | ':' :: _ =>
      (s.data.takeWhile (fun c => !(c == ':'))).all schemeChar &&
      (match s.data with | [] => false | c :: _ => c.isAlpha)
    | _ => false

/-- The inline-handler variant's successful reply (`src/app.js:272-275`): no
`original_url` field. -/
structure ResultV2 where
  image_data : String
  image_size : String
  deriving DecidableEq, Repr

/-- The collaborator responses one inline-handler request would observe (this
variant has no reachability probe). -/
structure WorldV2 where
  provider : ProviderResult
  sizeProbe : NetResult
  deriving DecidableEq, Repr

/-- The inline-handler variant's `POST /enhance-image` (`src/app.js:226-284`):
input errors get status 400 with specific codes; a provider failure gets
status 500 with code `ENHANCEMENT_FAILED` and the provider's message in
`details` (`reminiError.message || 'Unknown error occurred'`); an invalid
provider result gets status 500 with code `INVALID_RESULT`. -/
def postEnhanceImageV2 (url : Option String) (w : WorldV2) : Except FailureReply ResultV2 :=
  match url with
  | none =>
    .error { status := 400, error := "URL_REQUIRED"
             message := "Please provide an image URL in the request body" }
  | some u =>
    if u = "" then
      .error { status := 400, error := "URL_REQUIRED"
               message := "Please provide an image URL in the request body" }
    else if !(jsNewUrlSucceeds u) then
      .error { status := 400, error := "INVALID_URL"
               message := "The provided URL is not valid" }
    else
      match w.provider with
      | .err reminiMsg =>
        .error { status := 500, error := "ENHANCEMENT_FAILED"
                 message := "Failed to enhance the image"
                 details := some (if reminiMsg = "" then "Unknown error occurred" else reminiMsg) }
      | .ok enhancedImageUrl =>
        if enhancedImageUrl = "" || !(jsNewUrlSucceeds enhancedImageUrl) then
          .error { status := 500, error := "INVALID_RESULT"
                   message := "Enhanced image URL is invalid" }
        else
          .ok { image_data := enhancedImageUrl
                image_size := getFileSizeBasic w.sizeProbe }

/-- N concurrent `enhanceImage` requests: since the source shares no mutable
state across requests, each in-flight request is a pure function of its own
URL and its own collaborator responses, and a batch is their pointwise image. -/
def runConcurrent (reqs : List (Option String × World)) : List (Except String EnhanceOk) :=
  reqs.map (fun p => enhanceImage p.1 p.2)

/-- The fixed, caller-invisible configuration of one outbound `axios.head`
call. -/
structure AxiosConfig where
  timeoutMs : Nat
  maxRedirects : Nat
  deriving DecidableEq, Repr

/-- Configuration of the strict size probe (`src/app.js:34-35`): 5000 ms
timeout, at most 3 redirects. -/
def sizeProbeConfig : AxiosConfig := { timeoutMs := 5000, maxRedirects := 3 }

/-- Configuration of the strict reachability probe (`src/app.js:76-77`):
5000 ms timeout, at most 3 redirects. -/
def reachProbeConfig : AxiosConfig := { timeoutMs := 5000, maxRedirects := 3 }

/-- The spec's validity rules (§4.1), stated independently of the embedded
validator: after trimming, the candidate parses as an absolute URL whose
scheme is exactly `http` or `https` and whose host component is non-empty. -/
def SpecValidCandidate (s : String) : Prop :=
  ∃ u : UrlParts, parseAbsoluteUrl (jsTrim s) = some u ∧
    (u.scheme = "http" ∨ u.scheme = "https") ∧ u.host ≠ ""

end ReminiApi

namespace ReminiApi

example : jsTrim "  https://a.io  " = "https://a.io" := by decide
example : isValidUrl "http://example.com/a.png" = true := by decide
example : isValidUrl "https://example.com" = true := by decide
example : isValidUrl "" = false := by decide
example : isValidUrl "ftp://example.com" = false := by decide
example : isValidUrl "http://" = false := by decide
example : isValidUrl "not a url" = false := by decide
example : getFileSize (.ok ⟨200, none, some "204800"⟩) = "200.00 KB" := by decide
example : getFileSize (.ok ⟨200, none, some "abc"⟩) = "NaN KB" := by decide
example : getFileSize (.ok ⟨200, none, none⟩) = "0.00 KB" := by decide
example : getFileSize (.ok ⟨403, none, some "128"⟩) = "0.13 KB" := by decide
example : getFileSize (.err "timeout") = "Unknown" := by decide
example : getFileSizeBasic (.ok ⟨403, none, some "1"⟩) = "Unknown" := by decide

example :
    enhanceImage none ⟨.err "x", .err "y", .err "z"⟩ = .error "URL is required" := by decide
example :
    enhanceImage (some "") ⟨.err "x", .err "y", .err "z"⟩ = .error "URL is required" := by decide
example :
    enhanceImage (some "   ") ⟨.err "x", .err "y", .err "z"⟩ =
      .error "Invalid URL format or protocol" := by decide
example :
    enhanceImage (some "not a url") ⟨.err "x", .err "y", .err "z"⟩ =
      .error "Invalid URL format or protocol" := by decide
example :
    enhanceImage (some "http://example.com/a.png")
        ⟨.ok ⟨200, some "text/html", none⟩, .err "y", .err "z"⟩ =
      .error "Cannot access the specified image" := by decide
example :
    enhanceImage (some "http://example.com/a.png")
        ⟨.err "timeout", .err "y", .err "z"⟩ =
      .error "Cannot access the specified image" := by decide
example :
    enhanceImage (some "http://example.com/a.png")
        ⟨.ok ⟨200, some "image/png", none⟩, .err "boom", .err "z"⟩ =
      .error "Failed to enhance the image" := by decide
example :
    enhanceImage (some " https://example.com/in.png ")
        ⟨.ok ⟨200, some "image/jpeg", none⟩, .ok "https://example.com/out.png",
         .ok ⟨200, none, some "204800"⟩⟩ =
      .ok ⟨"https://example.com/in.png", "https://example.com/out.png", "200.00 KB"⟩ := by decide
example :
    enhanceImage (some "https://example.com/in.png")
        ⟨.ok ⟨200, some "image/jpeg", none⟩, .ok "https://example.com/out.png", .err "timeout"⟩ =
      .ok ⟨"https://example.com/in.png", "https://example.com/out.png", "Unknown"⟩ := by decide
example :
    postEnhanceImageV2 (some "http://example.com/a.png") ⟨.err "boom", .err "z"⟩ =
      .error ⟨500, "ENHANCEMENT_FAILED", "Failed to enhance the image", some "boom"⟩ := by decide
example : jsNewUrlSucceeds "mailto:someone" = true := by decide
example : jsNewUrlSucceeds "not a url" = false := by decide
example : jsNewUrlSucceeds "http://" = false := by decide

end ReminiApi

namespace ReminiApi

/-! ## Helper lemmas -/

theorem jsTrim_eq_empty_of_all_ws (s : String)
    (h : ∀ c ∈ s.data, jsWhitespace c = true) : jsTrim s = "" := by
  unfold jsTrim
  rw [List.dropWhile_eq_nil_iff.mpr h]
  rfl

theorem toFixed2KBHundredths_bounds (n : ℤ) :
    1024 * toFixed2KBHundredths n ≤ 100 * n + 512 ∧
      100 * n + 512 < 1024 * toFixed2KBHundredths n + 1024 := by
  unfold toFixed2KBHundredths
  rw [Int.fdiv_eq_ediv _ (by norm_num)]
  omega

/-! ## Claims -/

/-- C1 (code bug): in the strict pipeline, a reachable URL served with a
non-image content-type is meant to fail with the distinct `NotAnImage`
classification (`'URL does not point to a valid image'`, thrown at
`src/app.js:86`), but that throw sits inside the `try` whose `catch` rewraps
every failure as `'Cannot access the specified image'`; so both a failed
probe and a non-image content-type surface as the same `UnreachableResource`
message, and the distinct `NotAnImage` classification never escapes. -/
theorem notAnImage_collapsed_into_unreachable :
    enhanceImage (some "http://example.com/page.html")
        ⟨.ok ⟨200, some "text/html", none⟩, .err "unused", .err "unused"⟩ =
      .error "Cannot access the specified image" ∧
    enhanceImage (some "http://example.com/page.html")
        ⟨.err "connection refused", .err "unused", .err "unused"⟩ =
      .error "Cannot access the specified image" ∧
    "Cannot access the specified image" ≠ "URL does not point to a valid image" := by
  decide

/-- C2: the strict-variant URL validator (with the trim applied before
evaluation, as in `enhanceImage`) accepts a string iff it parses as an
absolute URL whose scheme is exactly `http` or `https` with a non-empty host
component; all other inputs give `false`. -/
theorem isValidUrl_iff_spec (s : String) :
    isValidUrl (jsTrim s) = true ↔ SpecValidCandidate s := by
  unfold isValidUrl validatorIsURL SpecValidCandidate
  cases hp : parseAbsoluteUrl (jsTrim s) with
  | none => simp
  | some u => simp

theorem isValidUrl_iff_spec_witness :
    (isValidUrl (jsTrim " https://example.com/a.png ") = true) ∧
      ¬ SpecValidCandidate "ftp://example.com" :=
  ⟨by decide,
   fun hc => by
     have h := (isValidUrl_iff_spec "ftp://example.com").mpr hc
     exact absurd h (by decide)⟩

/-- C3 (counterexample): a successful size probe whose `content-length` header
is non-numeric is not treated as 0 — `parseInt` yields `NaN` and the label is
`"NaN KB"`, not `"0.00 KB"`. -/
theorem getFileSize_nonNumeric_is_NaN :
    getFileSize (.ok ⟨200, some "image/png", some "abc"⟩) = "NaN KB" ∧
      "NaN KB" ≠ "0.00 KB" := by
  decide

/-- C3 (amended): when the size probe succeeds, a missing (or empty)
`content-length` is treated as 0 and labelled `"0.00 KB"`; a wholly
non-numeric value yields `"NaN KB"`; a value with a parsable leading integer
`n` is labelled with `n / 1024` rounded to two decimals (the printed
hundredths value is within half a hundredth of the exact ratio, ties up); in
particular 204800 gives `"200.00 KB"`. -/
theorem getFileSize_size_label :
    (∀ st ct, sizeAccept st = true → getFileSize (.ok ⟨st, ct, none⟩) = "0.00 KB") ∧
    (∀ st ct s, sizeAccept st = true → s ≠ "" → jsParseInt s = none →
      getFileSize (.ok ⟨st, ct, some s⟩) = "NaN KB") ∧
    (∀ st ct s n, sizeAccept st = true → jsParseInt s = some n →
      getFileSize (.ok ⟨st, ct, some s⟩) = toFixed2KB n ++ " KB") ∧
    (∀ n : ℤ, 1024 * toFixed2KBHundredths n ≤ 100 * n + 512 ∧
      100 * n + 512 < 1024 * toFixed2KBHundredths n + 1024) ∧
    getFileSize (.ok ⟨200, some "image/png", some "204800"⟩) = "200.00 KB" := by
  refine ⟨?_, ?_, ?_, toFixed2KBHundredths_bounds, by decide⟩
  · intro st ct h
    simp [getFileSize, axiosHead, h]
    rfl
  · intro st ct s h hs hparse
    simp [getFileSize, axiosHead, h, sizeLabelOf, hs, hparse]
  · intro st ct s n h hparse
    have hs : s ≠ "" := by
      intro he
      rw [he] at hparse
      exact Option.noConfusion (show (none : Option ℤ) = some n from hparse)
    simp [getFileSize, axiosHead, h, sizeLabelOf, hs, hparse]

theorem getFileSize_size_label_witness :
    getFileSize (.ok ⟨204, none, none⟩) = "0.00 KB" :=
  getFileSize_size_label.1 204 none (by decide)

/-- C8: calling the strict pipeline with `undefined` or with the empty string
fails with the `MissingUrl` classification (`'URL is required'`), and the
outcome is independent of every collaborator response — no validation or
network activity can influence it. -/
theorem enhanceImage_missing_url (w w' : World) :
    enhanceImage none w = .error "URL is required" ∧
    enhanceImage (some "") w = .error "URL is required" ∧
    enhanceImage none w = enhanceImage none w' ∧
    enhanceImage (some "") w = enhanceImage (some "") w' :=
  ⟨rfl, rfl, rfl, rfl⟩

/-- C10: a non-empty, all-whitespace URL is truthy, so it passes the presence
check; trimming then empties it, the validator rejects it, and the strict
pipeline fails with `InvalidUrl` (`'Invalid URL format or protocol'`), not
`MissingUrl` — regardless of collaborator responses. -/
theorem enhanceImage_whitespace_only (s : String) (w : World)
    (hne : s ≠ "") (hws : ∀ c ∈ s.data, jsWhitespace c = true) :
    enhanceImage (some s) w = .error "Invalid URL format or protocol" := by
  have htrim : jsTrim s = "" := jsTrim_eq_empty_of_all_ws s hws
  have hv : isValidUrl "" = false := by decide
  simp [enhanceImage, hne, htrim, hv]

theorem enhanceImage_whitespace_only_witness :
    enhanceImage (some "   ") ⟨.err "a", .err "b", .err "c"⟩ =
      .error "Invalid URL format or protocol" :=
  enhanceImage_whitespace_only "   " ⟨.err "a", .err "b", .err "c"⟩
    (by decide) (by decide)

end ReminiApi

namespace ReminiApi

/-- C4: the size probe never fails its caller — any network error, timeout, or
redirect-cap failure (all surfacing as a thrown axios error) and any
unacceptable status yield the sentinel `"Unknown"` — and when every earlier
pipeline step succeeds, the strict pipeline still succeeds with `"Unknown"`
as its size label. -/
theorem getFileSize_never_fails :
    (∀ m, getFileSize (.err m) = "Unknown") ∧
    (∀ r : HeadResponse, sizeAccept r.status = false → getFileSize (.ok r) = "Unknown") ∧
    (∀ u reach e szmsg, u ≠ "" → isValidUrl (jsTrim u) = true →
      checkAccess reach = .ok () → e ≠ "" → isValidUrl e = true →
      enhanceImage (some u) ⟨reach, .ok e, .err szmsg⟩ =
        .ok ⟨jsTrim u, e, "Unknown"⟩) := by
  refine ⟨fun m => rfl, ?_, ?_⟩
  · intro r h
    simp [getFileSize, axiosHead, h]
  · intro u reach e szmsg hu hval hca he hev
    simp [enhanceImage, hu, hval, hca, he, hev, getFileSize, axiosHead]

theorem getFileSize_never_fails_witness :
    enhanceImage (some "https://example.com/in.png")
        ⟨.ok ⟨200, some "image/png", none⟩, .ok "https://example.com/out.png",
         .err "timeout of 5000ms exceeded"⟩ =
      .ok ⟨"https://example.com/in.png", "https://example.com/out.png", "Unknown"⟩ :=
  getFileSize_never_fails.2.2 "https://example.com/in.png"
    (.ok ⟨200, some "image/png", none⟩) "https://example.com/out.png"
    "timeout of 5000ms exceeded" (by decide) (by decide) (by decide) (by decide) (by decide)

/-- C5 (counterexample): two provider failures with different original
messages produce bit-identical strict-pipeline failures, so the provider's
original message is not retrievable from the failure — the strict pipeline
throws a fresh `Error('Failed to enhance the image')` with no `cause`
(`src/app.js:97-99`), only logging the original. -/
theorem provider_message_not_retrievable :
    enhanceImage (some "http://example.com/a.png")
        ⟨.ok ⟨200, some "image/png", none⟩, .err "boom", .err "z"⟩ =
      .error "Failed to enhance the image" ∧
    enhanceImage (some "http://example.com/a.png")
        ⟨.ok ⟨200, some "image/png", none⟩, .err "boom", .err "z"⟩ =
      enhanceImage (some "http://example.com/a.png")
        ⟨.ok ⟨200, some "image/png", none⟩, .err "totally different", .err "z"⟩ ∧
    "boom" ≠ "totally different" := by
  decide

/-- C5 (amended): every provider failure makes the strict pipeline fail with
the `ProviderFailure` classification, but the provider's original message is
dropped there (the failure is the same whatever the message was); only the
inline-handler variant returns the original message, as the `details` field
of its 500 reply. -/
theorem provider_failure_classified :
    (∀ u reach sz pm pm', u ≠ "" → isValidUrl (jsTrim u) = true →
      checkAccess reach = .ok () →
      enhanceImage (some u) ⟨reach, .err pm, sz⟩ = .error "Failed to enhance the image" ∧
      enhanceImage (some u) ⟨reach, .err pm, sz⟩ =
        enhanceImage (some u) ⟨reach, .err pm', sz⟩) ∧
    (∀ u sz pm, u ≠ "" → jsNewUrlSucceeds u = true → pm ≠ "" →
      postEnhanceImageV2 (some u) ⟨.err pm, sz⟩ =
        .error { status := 500, error := "ENHANCEMENT_FAILED"
                 message := "Failed to enhance the image", details := some pm }) := by
  constructor
  · intro u reach sz pm pm' hu hval hca
    exact ⟨by simp [enhanceImage, hu, hval, hca], by simp [enhanceImage, hu, hval, hca]⟩
  · intro u sz pm hu hvu hpm
    simp [postEnhanceImageV2, hu, hvu, hpm]

theorem provider_failure_classified_witness :
    postEnhanceImageV2 (some "http://example.com/a.png") ⟨.err "boom", .err "z"⟩ =
      .error { status := 500, error := "ENHANCEMENT_FAILED"
               message := "Failed to enhance the image", details := some "boom" } :=
  provider_failure_classified.2 "http://example.com/a.png" (.err "z") "boom"
    (by decide) (by decide) (by decide)

/-- C6: both probes share the 5000 ms / 3-redirect configuration; the size
probe accepts every status the reachability probe accepts plus 403, while the
reachability probe rejects 403; concretely, the same 403 response lets the
size probe succeed (even computing a size label) while the strict pipeline's
reachability check fails. -/
theorem size_probe_accepts_403_reachability_rejects :
    reachProbeConfig = sizeProbeConfig ∧
    (∀ st, reachAccept st = true → sizeAccept st = true) ∧
    sizeAccept 403 = true ∧ reachAccept 403 = false ∧
    getFileSize (.ok ⟨403, some "image/png", some "204800"⟩) = "200.00 KB" ∧
    enhanceImage (some "http://example.com/a.png")
        ⟨.ok ⟨403, some "image/png", some "204800"⟩, .ok "http://example.com/b.png",
         .ok ⟨403, some "image/png", some "204800"⟩⟩ =
      .error "Cannot access the specified image" := by
  refine ⟨rfl, ?_, by decide, by decide, by decide, by decide⟩
  intro st h
  simp [reachAccept] at h
  simp [sizeAccept]
  omega

theorem size_probe_accepts_403_reachability_rejects_witness :
    sizeAccept 250 = true :=
  size_probe_accepts_403_reachability_rejects.2.1 250 (by decide)

/-- C7 (counterexample): at the inline-handler `/enhance-image` endpoint a
classified provider failure is answered with HTTP status 500 (code
`ENHANCEMENT_FAILED`), not 400 — so not every classified failure maps to 400,
and 500 is not reserved for faults escaping the pipeline. -/
theorem v2_provider_failure_returns_500 :
    postEnhanceImageV2 (some "http://example.com/a.png") ⟨.err "kaput", .err "z"⟩ =
      .error { status := 500, error := "ENHANCEMENT_FAILED"
               message := "Failed to enhance the image", details := some "kaput" } ∧
    (500 : Nat) ≠ 400 := by
  decide

/-- C7 (amended): in the variants routing through the shared `enhanceImage`
pipeline, every classified failure is answered with status 400, code
`ENHANCEMENT_FAILED`, and the failure's message (successes pass through
unchanged); the inline-handler variant instead answers missing or invalid
input with 400 (`URL_REQUIRED` / `INVALID_URL`) and provider failures or
invalid provider results with 500 (`ENHANCEMENT_FAILED` /
`INVALID_RESULT`). -/
theorem failure_status_mapping :
    (∀ url w e, enhanceImage url w = .error e →
      postEnhanceImage url w =
        .error { status := 400, error := "ENHANCEMENT_FAILED", message := e }) ∧
    (∀ url w r, enhanceImage url w = .ok r → postEnhanceImage url w = .ok r) ∧
    (∀ w, postEnhanceImageV2 none w =
      .error { status := 400, error := "URL_REQUIRED"
               message := "Please provide an image URL in the request body" }) ∧
    (∀ u w, u ≠ "" → jsNewUrlSucceeds u = false →
      postEnhanceImageV2 (some u) w =
        .error { status := 400, error := "INVALID_URL"
                 message := "The provided URL is not valid" }) ∧
    (∀ u e sz, u ≠ "" → jsNewUrlSucceeds u = true → jsNewUrlSucceeds e = false →
      postEnhanceImageV2 (some u) ⟨.ok e, sz⟩ =
        .error { status := 500, error := "INVALID_RESULT"
                 message := "Enhanced image URL is invalid" }) := by
  refine ⟨?_, ?_, fun w => rfl, ?_, ?_⟩
  · intro url w e h
    simp [postEnhanceImage, h]
  · intro url w r h
    simp [postEnhanceImage, h]
  · intro u w hu hvu
    simp [postEnhanceImageV2, hu, hvu]
  · intro u e sz hu hvu hve
    simp [postEnhanceImageV2, hu, hvu, hve]

theorem failure_status_mapping_witness :
    postEnhanceImage none ⟨.err "a", .err "b", .err "c"⟩ =
      .error { status := 400, error := "ENHANCEMENT_FAILED", message := "URL is required" } :=
  failure_status_mapping.1 none ⟨.err "a", .err "b", .err "c"⟩ "URL is required" (by decide)

/-- C9: a batch of concurrent `enhanceImage` runs exhibits no cross-talk — the
i-th result is determined by the i-th request (its URL and its own
collaborator responses) alone: two batches agreeing on request i agree on
result i, whatever the other requests are.  This holds because the pipeline
shares no mutable state across runs, which makes each run a pure function of
its own inputs. -/
theorem enhance_no_crosstalk (reqs reqs' : List (Option String × World)) (i : ℕ)
    (h : i < reqs.length) (h' : i < reqs'.length)
    (hsame : reqs.get ⟨i, h⟩ = reqs'.get ⟨i, h'⟩) :
    (runConcurrent reqs).get ⟨i, by simpa [runConcurrent] using h⟩ =
      (runConcurrent reqs').get ⟨i, by simpa [runConcurrent] using h'⟩ := by
  simp only [runConcurrent, List.get_map]
  exact congrArg (fun p => enhanceImage p.1 p.2) hsame

theorem enhance_no_crosstalk_witness :
    (runConcurrent [(none, ⟨.err "a", .err "b", .err "c"⟩)]).get ⟨0, by decide⟩ =
      (runConcurrent [(none, ⟨.err "a", .err "b", .err "c"⟩),
        (some "https://other.example", ⟨.err "d", .err "e", .err "f"⟩)]).get ⟨0, by decide⟩ :=
  enhance_no_crosstalk _ _ 0 (by decide) (by decide) rfl

end ReminiApi
